import Mathlib

set_option maxRecDepth 100000

/-!
Shallow embedding of `scripts/convert_to_safe_migration.py`.

The script's only logic is the pure function `make_safe (sql_content)`, which
splits the input on newline characters, scans the lines with a cursor,
rewrites four DDL statement shapes (CREATE TYPE enums, CREATE TABLE,
CREATE INDEX / CREATE UNIQUE INDEX, ALTER TABLE ... ADD CONSTRAINT) into
idempotent guarded forms, and joins the emitted lines with newlines.

Python string primitives (`split`, `join`, `strip`, `rstrip`, `replace`,
`startswith`, substring membership, and the two literal `re.search`
patterns) are modelled below as executable functions on `List Char`.
Python's `list[index]` can raise `IndexError`; the embedding returns
`Option`, with `none` for the two reachable `IndexError` sites
(`stmt.split('AS ENUM')[1]` and `line.split('INDEX ')[1]`).

The scanner advances at least one input line per outer iteration, so the
recursion is given the number of input lines as fuel; `make_safe` calls it
with exactly that fuel, and fuel sufficiency is proved below.
-/

/-- Python ASCII whitespace as stripped by `str.strip()` (the characters
relevant to newline-free lines of a text file). -/
def isPySpace (c : Char) : Bool :=
  c = ' ' || c = '\t' || c = '\n' || c = '\r' || c = '\x0b' || c = '\x0c'

/-- Python `s.strip()`. -/
def pyStrip (s : String) : String :=
  ⟨((s.data.dropWhile isPySpace).reverse.dropWhile isPySpace).reverse⟩

/-- Python `s.startswith(p)`. -/
def startsWith (s p : String) : Bool :=
  p.data.isPrefixOf s.data

/-- Python substring membership `needle in hay`, on character lists. -/
def containsL : List Char → List Char → Bool
  | [], needle => needle.isEmpty
  | c :: t, needle => needle.isPrefixOf (c :: t) || containsL t needle

/-- Python `needle in hay` for strings. -/
def pyContains (hay needle : String) : Bool :=
  containsL hay.data needle.data

/-- Python `s.split(sep)` for a non-empty separator, on character lists:
non-overlapping leftmost splitting.  `fuel` bounds the recursion; any
`fuel ≥ hay.length` gives the true result (proved below). -/
def splitOnL (sep : List Char) : Nat → List Char → List Char → List (List Char)
  | _, acc, [] => [acc.reverse]
  | 0, acc, rest => [acc.reverse ++ rest]
  | fuel + 1, acc, c :: cs =>
    if sep.isPrefixOf (c :: cs) then
      acc.reverse :: splitOnL sep fuel [] ((c :: cs).drop sep.length)
    else
      splitOnL sep fuel (c :: acc) cs

/-- Python `s.split(sep)` for strings (non-empty `sep`). -/
def pySplit (s sep : String) : List String :=
  (splitOnL sep.data s.data.length [] s.data).map (fun l => ⟨l⟩)

/-- Python `sep.join(xs)` on character lists. -/
def joinL (sep : List Char) : List (List Char) → List Char
  | [] => []
  | [x] => x
  | x :: y :: rest => x ++ sep ++ joinL sep (y :: rest)

/-- Python `sep.join(xs)` for strings. -/
def pyJoin (sep : String) (xs : List String) : String :=
  ⟨joinL sep.data (xs.map String.data)⟩

/-- Python `s.replace(old, new)` for non-empty `old`
(equivalent to `new.join(s.split(old))`, i.e. every occurrence replaced). -/
def pyReplace (s old new : String) : String :=
  pyJoin new (pySplit s old)

/-- Python `s.rstrip(';')`: remove all trailing semicolon characters. -/
def pyRstripSemi (s : String) : String :=
  ⟨(s.data.reverse.dropWhile (fun c => c = ';')).reverse⟩

/-- The capture step of the regex `<literal>"([^"]+)"` once the literal and
the opening quote have matched: a non-empty run of non-quote characters
followed by a closing quote. -/
def matchQuotedAt (cs : List Char) : Option String :=
  match cs.takeWhile (fun c => !(c = '"')) with
  | [] => none
  | a :: as =>
    match cs.drop (a :: as).length with
    | '"' :: _ => some ⟨a :: as⟩
    | _ => none

/-- Python `re.search` for a pattern `<literal>([^"]+)"` where `pat` is the
literal part including the opening quote: try every start position left to
right, returning the first successful capture. -/
def searchQuoted (pat : List Char) : List Char → Option String
  | [] => none
  | c :: cs =>
    match (if pat.isPrefixOf (c :: cs) then matchQuotedAt ((c :: cs).drop pat.length) else none) with
    | some n => some n
    | none => searchQuoted pat cs

/-- `re.search(r'CREATE TYPE "([^\x22]+)"', line)`, returning the captured
type name. -/
def extractTypeName (line : String) : Option String :=
  searchQuoted ("CREATE TYPE \"").data line.data

/-- `re.search(r'ALTER TABLE "([^\x22]+)"', line)`, returning the captured
table name. -/
def extractTableName (line : String) : Option String :=
  searchQuoted ("ALTER TABLE \"").data line.data

/-- `re.search(r'ADD CONSTRAINT "([^\x22]+)"', line)`, returning the
captured constraint name. -/
def extractConstraintName (line : String) : Option String :=
  searchQuoted ("ADD CONSTRAINT \"").data line.data

/-- Guard of the first branch: `line.strip().startswith('CREATE TYPE')`. -/
def isCreateType (line : String) : Bool :=
  startsWith (pyStrip line) "CREATE TYPE"

/-- Guard of the second branch: `line.strip().startswith('CREATE TABLE')`. -/
def isCreateTable (line : String) : Bool :=
  startsWith (pyStrip line) "CREATE TABLE"

/-- Guard of the third branch: `line.strip().startswith('CREATE INDEX') or
line.strip().startswith('CREATE UNIQUE INDEX')`. -/
def isCreateIndex (line : String) : Bool :=
  startsWith (pyStrip line) "CREATE INDEX" || startsWith (pyStrip line) "CREATE UNIQUE INDEX"

/-- Guard of the fourth branch: `line.strip().startswith('ALTER TABLE') and
'ADD CONSTRAINT' in line`. -/
def isAddConstraint (line : String) : Bool :=
  startsWith (pyStrip line) "ALTER TABLE" && pyContains line "ADD CONSTRAINT"

/-- The statement-accumulation loop shared by the enum and constraint
branches: starting from `stmt` (the current line), repeatedly append
`'\n' + next line` while `stmt` does not contain `';'` and lines remain.
Returns the accumulated statement and the unconsumed lines. -/
def collectStmt (stmt : String) : List String → String × List String
  | [] => (stmt, [])
  | l :: rest =>
    if pyContains stmt ";" then (stmt, l :: rest)
    else collectStmt (stmt ++ "\n" ++ l) rest

/-- The guarded DO block emitted for an enum type (the f-string at lines
25-29 of the script). -/
def enumBlock (typeName enumDef : String) : String :=
  "DO $$ BEGIN\n    CREATE TYPE \"" ++ typeName ++ "\" AS ENUM " ++ enumDef ++
    ";\nEXCEPTION\n    WHEN duplicate_object THEN null;\nEND $$;"

/-- The guarded DO block emitted for a constraint addition (the f-string at
lines 69-75 of the script): a `pg_constraint` catalog check on the
constraint name, guarding the unmodified accumulated statement. -/
def constraintBlock (constraintName stmt : String) : String :=
  "DO $$\nBEGIN\n    IF NOT EXISTS (SELECT 1 FROM pg_constraint WHERE conname = '" ++
    constraintName ++ "') THEN\n        " ++ stmt ++ "\n    END IF;\nEND\n$$;"

/-- The main scan (`while i < len(lines)` loop of `make_safe`), fuel-indexed:
each outer iteration consumes at least one line, so `fuel = lines.length`
suffices (proved below).  `none` models a Python `IndexError` escaping
`make_safe` (from `stmt.split('AS ENUM')[1]` or `line.split('INDEX ')[1]`);
the `fuel = 0` row is unreachable for sufficient fuel. -/
def processLines : Nat → List String → Option (List String)
  | _, [] => some []
  | 0, _ :: _ => none
  | fuel + 1, line :: rest =>
    if isCreateType line then
      match extractTypeName line with
      | some typeName =>
        match (pySplit (collectStmt line rest).1 "AS ENUM")[1]? with
        | some afterEnum =>
          (processLines fuel (collectStmt line rest).2).map
            (fun out => enumBlock typeName (pyRstripSemi (pyStrip afterEnum)) :: out)
        | none => none
      | none => (processLines fuel rest).map (fun out => line :: out)
    else if isCreateTable line then
      (processLines fuel rest).map
        (fun out => pyReplace line "CREATE TABLE" "CREATE TABLE IF NOT EXISTS" :: out)
    else if isCreateIndex line then
      if pyContains line "INDEX" && !(pyContains line "IF NOT EXISTS") then
        match pySplit line "INDEX " with
        | p0 :: p1 :: _ =>
          (processLines fuel rest).map
            (fun out => (p0 ++ "INDEX IF NOT EXISTS " ++ p1) :: out)
        | _ => none
      else (processLines fuel rest).map (fun out => line :: out)
    else if isAddConstraint line then
      match extractTableName line, extractConstraintName line with
      | some _, some constraintName =>
        (processLines fuel (collectStmt line rest).2).map
          (fun out => constraintBlock constraintName (collectStmt line rest).1 :: out)
      | _, _ => (processLines fuel rest).map (fun out => line :: out)
    else
      (processLines fuel rest).map (fun out => line :: out)

/-- The whole transformation `make_safe(sql_content)`:
`'\n'.join(process(sql_content.split('\n')))`, with `none` when the scan
raises `IndexError`. -/
def make_safe (sql_content : String) : Option String :=
  (processLines (pySplit sql_content "\n").length (pySplit sql_content "\n")).map
    (fun out => pyJoin "\n" out)

/-- A line on which `make_safe` can raise `IndexError`, phrased as the
control-flow mirror of `processLines`: `false` exactly when the scan with
this fuel reaches either `stmt.split('AS ENUM')[1]` with fewer than two
split parts, or `line.split('INDEX ')[1]` with fewer than two parts
(or runs out of fuel, which sufficient fuel never does). -/
def noCrash : Nat → List String → Bool
  | _, [] => true
  | 0, _ :: _ => false
  | fuel + 1, line :: rest =>
    if isCreateType line then
      match extractTypeName line with
      | some _ =>
        ((pySplit (collectStmt line rest).1 "AS ENUM")[1]?).isSome &&
          noCrash fuel (collectStmt line rest).2
      | none => noCrash fuel rest
    else if isCreateTable line then noCrash fuel rest
    else if isCreateIndex line then
      if pyContains line "INDEX" && !(pyContains line "IF NOT EXISTS") then
        match pySplit line "INDEX " with
        | _ :: _ :: _ => noCrash fuel rest
        | _ => false
      else noCrash fuel rest
    else if isAddConstraint line then
      match extractTableName line, extractConstraintName line with
      | some _, some _ => noCrash fuel (collectStmt line rest).2
      | _, _ => noCrash fuel rest
    else noCrash fuel rest

/-- A line matching none of the four branch guards of the scan: such a line
is handled by the final `else` (pure pass-through). -/
def isPassThrough (line : String) : Bool :=
  !(isCreateType line) && !(isCreateTable line) && !(isCreateIndex line) && !(isAddConstraint line)

/-- The lines the scan passes through via its final `else` branch, in scan
order: the lines the cursor reaches directly (not consumed as statement
lookahead) that match none of the four branch guards. -/
def passThroughTrace : Nat → List String → List String
  | _, [] => []
  | 0, _ :: _ => []
  | fuel + 1, line :: rest =>
    if isCreateType line then
      match extractTypeName line with
      | some _ => passThroughTrace fuel (collectStmt line rest).2
      | none => passThroughTrace fuel rest
    else if isCreateTable line then passThroughTrace fuel rest
    else if isCreateIndex line then passThroughTrace fuel rest
    else if isAddConstraint line then
      match extractTableName line, extractConstraintName line with
      | some _, some _ => passThroughTrace fuel (collectStmt line rest).2
      | _, _ => passThroughTrace fuel rest
    else line :: passThroughTrace fuel rest

/-! ### Basic lemmas about the Python string model -/

theorem isSome_map {α β : Type} (f : α → β) (x : Option α) :
    (Option.map f x).isSome = x.isSome := by
  cases x <;> rfl

theorem isPrefixOf_append_drop :
    ∀ (p l : List Char), p.isPrefixOf l = true → p ++ l.drop p.length = l := by
  intro p
  induction p with
  | nil => intro l _; simp
  | cons a as ih =>
    intro l h
    cases l with
    | nil => simp [List.isPrefixOf] at h
    | cons c cs =>
      simp only [List.isPrefixOf, Bool.and_eq_true, beq_iff_eq] at h
      obtain ⟨hac, h'⟩ := h
      subst hac
      simpa using ih cs h'

theorem nil_isPrefixOf (q : List Char) : ([] : List Char).isPrefixOf q = true := by
  cases q <;> rfl

theorem isPrefixOf_total :
    ∀ (p q l : List Char), p.isPrefixOf l = true → q.isPrefixOf l = true →
      p.isPrefixOf q = true ∨ q.isPrefixOf p = true := by
  intro p q l
  induction l generalizing p q with
  | nil =>
    intro hp _
    cases p with
    | nil => exact Or.inl (nil_isPrefixOf _)
    | cons a as => simp [List.isPrefixOf] at hp
  | cons c cs ih =>
    intro hp hq
    cases p with
    | nil => exact Or.inl (nil_isPrefixOf _)
    | cons a as =>
      cases q with
      | nil => exact Or.inr (nil_isPrefixOf _)
      | cons b bs =>
        simp only [List.isPrefixOf, Bool.and_eq_true, beq_iff_eq] at hp hq ⊢
        obtain ⟨hac, hp'⟩ := hp
        obtain ⟨hbc, hq'⟩ := hq
        subst hac; subst hbc
        rcases ih as bs hp' hq' with h | h
        · exact Or.inl ⟨rfl, h⟩
        · exact Or.inr ⟨rfl, h⟩

theorem isPrefixOf_excl (p q l : List Char) (h1 : p.isPrefixOf q = false)
    (h2 : q.isPrefixOf p = false) (hp : p.isPrefixOf l = true) :
    q.isPrefixOf l = false := by
  cases hq : q.isPrefixOf l with
  | false => rfl
  | true =>
    rcases isPrefixOf_total p q l hp hq with h | h
    · rw [h] at h1; cases h1
    · rw [h] at h2; cases h2

theorem isPrefixOf_append_of (p q r : List Char) (h : p.isPrefixOf q = true) :
    p.isPrefixOf (q ++ r) = true := by
  induction p generalizing q with
  | nil => exact nil_isPrefixOf _
  | cons a as ih =>
    cases q with
    | nil => simp [List.isPrefixOf] at h
    | cons c cs =>
      simp only [List.isPrefixOf, Bool.and_eq_true, beq_iff_eq] at h ⊢
      exact ⟨h.1, ih cs h.2⟩

theorem containsL_append_of (a b n : List Char) (h : n.isPrefixOf b = true) :
    containsL (a ++ b) n = true := by
  induction a with
  | nil =>
    cases b with
    | nil =>
      cases n with
      | nil => rfl
      | cons x xs => simp [List.isPrefixOf] at h
    | cons c t => simp [containsL, h]
  | cons x xs ih => simp [containsL, ih]

theorem data_append (s t : String) : (s ++ t).data = s.data ++ t.data := by
  cases s; cases t; rfl

theorem splitOnL_ne_nil (sep : List Char) :
    ∀ (fuel : Nat) (acc hay : List Char), splitOnL sep fuel acc hay ≠ [] := by
  intro fuel
  induction fuel with
  | zero =>
    intro acc hay
    cases hay <;> simp [splitOnL]
  | succ f ih =>
    intro acc hay
    cases hay with
    | nil => simp [splitOnL]
    | cons c cs =>
      simp only [splitOnL]
      by_cases hp : sep.isPrefixOf (c :: cs) = true
      · simp [hp]
      · simp only [Bool.not_eq_true] at hp
        simp [hp, ih]

theorem joinL_cons_ne (sep x : List Char) (l : List (List Char)) (h : l ≠ []) :
    joinL sep (x :: l) = x ++ sep ++ joinL sep l := by
  cases l with
  | nil => exact absurd rfl h
  | cons y r => rfl

theorem joinL_splitOnL (sep : List Char) (hsep : sep ≠ []) :
    ∀ (fuel : Nat) (acc hay : List Char), hay.length ≤ fuel →
      joinL sep (splitOnL sep fuel acc hay) = acc.reverse ++ hay := by
  intro fuel
  induction fuel with
  | zero =>
    intro acc hay h
    have : hay = [] := List.length_eq_zero.mp (Nat.le_zero.mp h)
    subst this
    simp [splitOnL, joinL]
  | succ f ih =>
    intro acc hay h
    cases hay with
    | nil => simp [splitOnL, joinL]
    | cons c cs =>
      simp only [splitOnL]
      by_cases hp : sep.isPrefixOf (c :: cs) = true
      · simp only [hp, if_true]
        rw [joinL_cons_ne _ _ _ (splitOnL_ne_nil _ _ _ _)]
        rw [ih [] ((c :: cs).drop sep.length) ?_]
        · rw [List.reverse_nil, List.nil_append, List.append_assoc]
          rw [isPrefixOf_append_drop sep (c :: cs) hp]
        · have hs1 : 1 ≤ sep.length := by
            cases sep with
            | nil => exact absurd rfl hsep
            | cons _ _ => simp
          have := List.length_drop sep.length (c :: cs)
          simp only [List.length_cons] at this h ⊢
          omega
      · simp only [Bool.not_eq_true] at hp
        simp only [hp, Bool.false_eq_true, if_false]
        rw [ih (c :: acc) cs (by simpa using Nat.le_of_succ_le_succ h)]
        simp [List.reverse_cons, List.append_assoc]

theorem pyJoin_pySplit (s sep : String) (hsep : sep.data ≠ []) :
    pyJoin sep (pySplit s sep) = s := by
  unfold pyJoin pySplit
  rw [List.map_map]
  have hmap : (String.data ∘ fun l => (⟨l⟩ : String)) = id := funext fun l => rfl
  rw [hmap, List.map_id]
  rw [joinL_splitOnL sep.data hsep s.data.length [] s.data (le_refl _)]
  rfl

theorem pyJoin_pair (sep a b : String) : pyJoin sep [a, b] = a ++ sep ++ b := by
  cases a with
  | mk da =>
    cases sep with
    | mk ds =>
      cases b with
      | mk db =>
        show (⟨joinL ds [da, db]⟩ : String) = _
        show (⟨da ++ ds ++ db⟩ : String) = _
        rfl

/-! ### Lemmas about the statement accumulator -/

theorem collectStmt_rest_le (stmt : String) :
    ∀ (l : List String), ((collectStmt stmt l).2).length ≤ l.length := by
  intro l
  induction l generalizing stmt with
  | nil => simp [collectStmt]
  | cons x xs ih =>
    simp only [collectStmt]
    by_cases h : pyContains stmt ";" = true
    · simp [h]
    · simp only [Bool.not_eq_true] at h
      simp only [h, Bool.false_eq_true, if_false]
      exact Nat.le_trans (ih _) (Nat.le_succ _)

theorem collectStmt_terminator (stmt : String) :
    ∀ (l : List String),
      pyContains (collectStmt stmt l).1 ";" = true ∨ (collectStmt stmt l).2 = [] := by
  intro l
  induction l generalizing stmt with
  | nil => exact Or.inr rfl
  | cons x xs ih =>
    by_cases h : pyContains stmt ";" = true
    · exact Or.inl (by simp [collectStmt, h])
    · have h' : pyContains stmt ";" = false := by simpa using h
      simpa [collectStmt, h'] using ih (stmt ++ "\n" ++ x)

/-! ### Mutual exclusivity of the branch guards -/

theorem notCreateType_of_isCreateTable (line : String) (h : isCreateTable line = true) :
    isCreateType line = false := by
  unfold isCreateTable startsWith at h
  unfold isCreateType startsWith
  exact isPrefixOf_excl _ _ _ (by decide) (by decide) h

theorem excl_of_isCreateIndex (line : String) (h : isCreateIndex line = true) :
    isCreateType line = false ∧ isCreateTable line = false := by
  unfold isCreateIndex startsWith at h
  unfold isCreateType isCreateTable startsWith
  rcases Bool.or_eq_true_iff.mp h with h' | h'
  · exact ⟨isPrefixOf_excl _ _ _ (by decide) (by decide) h',
      isPrefixOf_excl _ _ _ (by decide) (by decide) h'⟩
  · exact ⟨isPrefixOf_excl _ _ _ (by decide) (by decide) h',
      isPrefixOf_excl _ _ _ (by decide) (by decide) h'⟩

theorem excl_of_isAddConstraint (line : String) (h : isAddConstraint line = true) :
    isCreateType line = false ∧ isCreateTable line = false ∧ isCreateIndex line = false := by
  unfold isAddConstraint at h
  simp only [Bool.and_eq_true] at h
  have halt : startsWith (pyStrip line) "ALTER TABLE" = true := h.1
  unfold startsWith at halt
  unfold isCreateType isCreateTable isCreateIndex startsWith
  refine ⟨isPrefixOf_excl _ _ _ (by decide) (by decide) halt,
    isPrefixOf_excl _ _ _ (by decide) (by decide) halt, ?_⟩
  rw [isPrefixOf_excl _ _ _ (by decide) (by decide) halt,
    isPrefixOf_excl _ _ _ (by decide) (by decide) halt]
  rfl

/-! ### The scan at sufficient fuel -/

theorem processLines_fuel_irrel :
    ∀ (f g : Nat) (lines : List String), lines.length ≤ f → lines.length ≤ g →
      processLines f lines = processLines g lines := by
  intro f
  induction f with
  | zero =>
    intro g lines hf _
    have : lines = [] := List.length_eq_zero.mp (Nat.le_zero.mp hf)
    subst this
    cases g <;> rfl
  | succ f ih =>
    intro g lines hf hg
    cases lines with
    | nil => cases g <;> rfl
    | cons line rest =>
      cases g with
      | zero => simp at hg
      | succ g' =>
        have hrest_f : rest.length ≤ f := by
          simpa using Nat.le_of_succ_le_succ hf
        have hrest_g : rest.length ≤ g' := by
          simpa using Nat.le_of_succ_le_succ hg
        have hcol_f : ((collectStmt line rest).2).length ≤ f :=
          Nat.le_trans (collectStmt_rest_le line rest) hrest_f
        have hcol_g : ((collectStmt line rest).2).length ≤ g' :=
          Nat.le_trans (collectStmt_rest_le line rest) hrest_g
        cases h1 : isCreateType line with
        | true =>
          cases hE : extractTypeName line with
          | some name =>
            cases hget : (pySplit (collectStmt line rest).1 "AS ENUM")[1]? with
            | some afterEnum =>
              simp only [processLines, h1, if_true, hE, hget]
              rw [ih g' (collectStmt line rest).2 hcol_f hcol_g]
            | none => simp [processLines, h1, hE, hget]
          | none =>
            simp only [processLines, h1, if_true, hE]
            rw [ih g' rest hrest_f hrest_g]
        | false =>
          cases h2 : isCreateTable line with
          | true =>
            simp only [processLines, h1, Bool.false_eq_true, if_false, h2, if_true]
            rw [ih g' rest hrest_f hrest_g]
          | false =>
            cases h3 : isCreateIndex line with
            | true =>
              cases h4 : (pyContains line "INDEX" && !(pyContains line "IF NOT EXISTS")) with
              | true =>
                cases h5 : pySplit line "INDEX " with
                | nil => simp [processLines, h1, h2, h3, h4, h5]
                | cons p0 t =>
                  cases t with
                  | nil => simp [processLines, h1, h2, h3, h4, h5]
                  | cons p1 t2 =>
                    simp only [processLines, h1, h2, Bool.false_eq_true, if_false, h3,
                      if_true, h4, h5]
                    rw [ih g' rest hrest_f hrest_g]
              | false =>
                simp only [processLines, h1, h2, Bool.false_eq_true, if_false, h3, if_true, h4]
                rw [ih g' rest hrest_f hrest_g]
            | false =>
              cases h6 : isAddConstraint line with
              | true =>
                cases hT : extractTableName line with
                | some tn =>
                  cases hC : extractConstraintName line with
                  | some cn =>
                    simp only [processLines, h1, h2, h3, Bool.false_eq_true, if_false, h6,
                      if_true, hT, hC]
                    rw [ih g' (collectStmt line rest).2 hcol_f hcol_g]
                  | none =>
                    simp only [processLines, h1, h2, h3, Bool.false_eq_true, if_false, h6,
                      if_true, hT, hC]
                    rw [ih g' rest hrest_f hrest_g]
                | none =>
                  simp only [processLines, h1, h2, h3, Bool.false_eq_true, if_false, h6,
                    if_true, hT]
                  rw [ih g' rest hrest_f hrest_g]
              | false =>
                simp only [processLines, h1, h2, h3, h6, Bool.false_eq_true, if_false]
                rw [ih g' rest hrest_f hrest_g]

theorem isSome_processLines_eq_noCrash :
    ∀ (fuel : Nat) (lines : List String),
      (processLines fuel lines).isSome = noCrash fuel lines := by
  intro fuel
  induction fuel with
  | zero =>
    intro lines
    cases lines <;> rfl
  | succ f ih =>
    intro lines
    cases lines with
    | nil => rfl
    | cons line rest =>
      cases h1 : isCreateType line with
      | true =>
        cases hE : extractTypeName line with
        | some name =>
          cases hget : (pySplit (collectStmt line rest).1 "AS ENUM")[1]? with
          | some afterEnum => simp [processLines, noCrash, h1, hE, hget, isSome_map, ih]
          | none => simp [processLines, noCrash, h1, hE, hget]
        | none => simp [processLines, noCrash, h1, hE, isSome_map, ih]
      | false =>
        cases h2 : isCreateTable line with
        | true => simp [processLines, noCrash, h1, h2, isSome_map, ih]
        | false =>
          cases h3 : isCreateIndex line with
          | true =>
            cases h4 : (pyContains line "INDEX" && !(pyContains line "IF NOT EXISTS")) with
            | true =>
              cases h5 : pySplit line "INDEX " with
              | nil => simp [processLines, noCrash, h1, h2, h3, h4, h5]
              | cons p0 t =>
                cases t with
                | nil => simp [processLines, noCrash, h1, h2, h3, h4, h5]
                | cons p1 t2 => simp [processLines, noCrash, h1, h2, h3, h4, h5, isSome_map, ih]
            | false => simp [processLines, noCrash, h1, h2, h3, h4, isSome_map, ih]
          | false =>
            cases h6 : isAddConstraint line with
            | true =>
              cases hT : extractTableName line with
              | some tn =>
                cases hC : extractConstraintName line with
                | some cn => simp [processLines, noCrash, h1, h2, h3, h6, hT, hC, isSome_map, ih]
                | none => simp [processLines, noCrash, h1, h2, h3, h6, hT, hC, isSome_map, ih]
              | none => simp [processLines, noCrash, h1, h2, h3, h6, hT, isSome_map, ih]
            | false => simp [processLines, noCrash, h1, h2, h3, h6, isSome_map, ih]

theorem processLines_passThrough :
    ∀ (fuel : Nat) (lines : List String), lines.length ≤ fuel →
      (∀ l ∈ lines, isPassThrough l = true) → processLines fuel lines = some lines := by
  intro fuel
  induction fuel with
  | zero =>
    intro lines h _
    have : lines = [] := List.length_eq_zero.mp (Nat.le_zero.mp h)
    subst this
    rfl
  | succ f ih =>
    intro lines hlen hpass
    cases lines with
    | nil => rfl
    | cons line rest =>
      have hline := hpass line (List.mem_cons_self _ _)
      simp only [isPassThrough, Bool.and_eq_true, Bool.not_eq_true'] at hline
      obtain ⟨⟨⟨h1, h2⟩, h3⟩, h6⟩ := hline
      have hrest : processLines f rest = some rest :=
        ih rest (by simpa using Nat.le_of_succ_le_succ hlen)
          (fun l hl => hpass l (List.mem_cons_of_mem _ hl))
      simp [processLines, h1, h2, h3, h6, hrest]

/-- C7 (corrected): every line that the scan reaches directly (i.e. not
consumed as lookahead while accumulating an enum or constraint statement)
and that matches none of the recognized DDL-leading patterns appears in the
output with identical content and in the same relative order: the scan's
pass-through trace is a sublist of the output line list.  (The original
claim, quantifying over all non-matching input lines, fails for lines
consumed by statement accumulation — see the counterexample.) -/
theorem c7_theorem :
    ∀ (fuel : Nat) (lines out : List String),
      processLines fuel lines = some out →
      List.Sublist (passThroughTrace fuel lines) out := by
  intro fuel
  induction fuel with
  | zero =>
    intro lines out h
    cases lines with
    | nil =>
      have : out = [] := by simpa [processLines] using h.symm
      subst this
      exact List.nil_sublist _
    | cons line rest => simp [processLines] at h
  | succ f ih =>
    intro lines out h
    cases lines with
    | nil =>
      have : out = [] := by simpa [processLines] using h.symm
      subst this
      exact List.nil_sublist _
    | cons line rest =>
      cases h1 : isCreateType line with
      | true =>
        cases hE : extractTypeName line with
        | some name =>
          cases hget : (pySplit (collectStmt line rest).1 "AS ENUM")[1]? with
          | some afterEnum =>
            simp only [processLines, h1, if_true, hE, hget] at h
            rw [Option.map_eq_some'] at h
            obtain ⟨out', hout', heq⟩ := h
            subst heq
            simpa [passThroughTrace, h1, hE] using
              List.Sublist.cons _ (ih (collectStmt line rest).2 out' hout')
          | none => simp [processLines, h1, hE, hget] at h
        | none =>
          simp only [processLines, h1, if_true, hE] at h
          rw [Option.map_eq_some'] at h
          obtain ⟨out', hout', heq⟩ := h
          subst heq
          simpa [passThroughTrace, h1, hE] using List.Sublist.cons _ (ih rest out' hout')
      | false =>
        cases h2 : isCreateTable line with
        | true =>
          simp only [processLines, h1, Bool.false_eq_true, if_false, h2, if_true] at h
          rw [Option.map_eq_some'] at h
          obtain ⟨out', hout', heq⟩ := h
          subst heq
          simpa [passThroughTrace, h1, h2] using List.Sublist.cons _ (ih rest out' hout')
        | false =>
          cases h3 : isCreateIndex line with
          | true =>
            cases h4 : (pyContains line "INDEX" && !(pyContains line "IF NOT EXISTS")) with
            | true =>
              cases h5 : pySplit line "INDEX " with
              | nil => simp [processLines, h1, h2, h3, h4, h5] at h
              | cons p0 t =>
                cases t with
                | nil => simp [processLines, h1, h2, h3, h4, h5] at h
                | cons p1 t2 =>
                  simp only [processLines, h1, h2, Bool.false_eq_true, if_false, h3, if_true,
                    h4, h5] at h
                  rw [Option.map_eq_some'] at h
                  obtain ⟨out', hout', heq⟩ := h
                  subst heq
                  simpa [passThroughTrace, h1, h2, h3] using
                    List.Sublist.cons _ (ih rest out' hout')
            | false =>
              simp only [processLines, h1, h2, Bool.false_eq_true, if_false, h3, if_true,
                h4] at h
              rw [Option.map_eq_some'] at h
              obtain ⟨out', hout', heq⟩ := h
              subst heq
              simpa [passThroughTrace, h1, h2, h3] using
                List.Sublist.cons _ (ih rest out' hout')
          | false =>
            cases h6 : isAddConstraint line with
            | true =>
              cases hT : extractTableName line with
              | some tn =>
                cases hC : extractConstraintName line with
                | some cn =>
                  simp only [processLines, h1, h2, h3, Bool.false_eq_true, if_false, h6,
                    if_true, hT, hC] at h
                  rw [Option.map_eq_some'] at h
                  obtain ⟨out', hout', heq⟩ := h
                  subst heq
                  simpa [passThroughTrace, h1, h2, h3, h6, hT, hC] using
                    List.Sublist.cons _ (ih (collectStmt line rest).2 out' hout')
                | none =>
                  simp only [processLines, h1, h2, h3, Bool.false_eq_true, if_false, h6,
                    if_true, hT, hC] at h
                  rw [Option.map_eq_some'] at h
                  obtain ⟨out', hout', heq⟩ := h
                  subst heq
                  simpa [passThroughTrace, h1, h2, h3, h6, hT, hC] using
                    List.Sublist.cons _ (ih rest out' hout')
              | none =>
                simp only [processLines, h1, h2, h3, Bool.false_eq_true, if_false, h6,
                  if_true, hT] at h
                rw [Option.map_eq_some'] at h
                obtain ⟨out', hout', heq⟩ := h
                subst heq
                simpa [passThroughTrace, h1, h2, h3, h6, hT] using
                  List.Sublist.cons _ (ih rest out' hout')
            | false =>
              simp only [processLines, h1, h2, h3, h6, Bool.false_eq_true, if_false] at h
              rw [Option.map_eq_some'] at h
              obtain ⟨out', hout', heq⟩ := h
              subst heq
              simpa [passThroughTrace, h1, h2, h3, h6] using
                List.Sublist.cons₂ line (ih rest out' hout')

/-! ### The claims -/

/-- C1 counterexample: the input line `CREATE TYPE "Foo";` is classified by
the enum branch (trimmed line starts with CREATE TYPE, quoted name "Foo" is
extracted), the accumulated statement contains the terminator, but lacks
the text `AS ENUM` — so `stmt.split('AS ENUM')[1]` raises `IndexError` and
`make_safe` does not return an output string, contradicting the claim that
no input text can make the transformation itself fail. -/
theorem c1_counterexample : make_safe "CREATE TYPE \"Foo\";" = none := by decide

/-- C1 (corrected): make_safe returns an output string for exactly those
inputs on which the scan never reaches one of its two `IndexError` sites
(`stmt.split('AS ENUM')[1]` on an enum statement with no `AS ENUM` text,
and `line.split('INDEX ')[1]` on an index line with no occurrence of
`INDEX` followed by a space); every other classification branch performs
its rewrite or falls back to the unchanged line.  `noCrash` is the
control-flow mirror of the scan recording exactly those two conditions. -/
theorem c1_theorem (s : String) :
    (make_safe s).isSome = noCrash (pySplit s "\n").length (pySplit s "\n") := by
  unfold make_safe
  rw [isSome_map]
  exact isSome_processLines_eq_noCrash _ _

/-- C2 counterexample: the line `CREATE TYPE "Color";` satisfies the
claim's hypotheses (trimmed form begins with CREATE TYPE, the quoted type
name `Color` is extractable), yet `make_safe` does not replace the
statement with a guarded DO block — it raises `IndexError`
(`stmt.split('AS ENUM')[1]` on a statement with no `AS ENUM`). -/
theorem c2_counterexample : make_safe "CREATE TYPE \"Color\";" = none := by decide

/-- C2 (corrected): for every line whose trimmed form begins with CREATE
TYPE and from which a double-quoted type name can be extracted, provided
the accumulated statement contains the text `AS ENUM`, `make_safe`
accumulates subsequent lines until the accumulated text contains `;` (or
the script ends), and replaces the statement with the guarded DO block
`enumBlock` that retries `CREATE TYPE "<name>" AS ENUM <value-list>;`
inside a `BEGIN ... EXCEPTION WHEN duplicate_object THEN null; END`
wrapper, where the value-list is the statement text after the first
`AS ENUM` (up to a second occurrence, if any), whitespace-stripped and
with trailing semicolons removed. -/
theorem c2_theorem (line afterEnum name : String) (rest : List String) (fuel : Nat)
    (h1 : isCreateType line = true)
    (hname : extractTypeName line = some name)
    (henum : (pySplit (collectStmt line rest).1 "AS ENUM")[1]? = some afterEnum) :
    processLines (fuel + 1) (line :: rest) =
      (processLines fuel (collectStmt line rest).2).map
        (fun out => enumBlock name (pyRstripSemi (pyStrip afterEnum)) :: out) ∧
    (pyContains (collectStmt line rest).1 ";" = true ∨ (collectStmt line rest).2 = []) := by
  constructor
  · simp only [processLines, h1, if_true, hname, henum]
  · exact collectStmt_terminator line rest

/-- Witness for C2 at the spec's enum example. -/
theorem c2_witness :
    processLines 1 ["CREATE TYPE \"Color\" AS ENUM ('RED', 'BLUE');"] =
      some ["DO $$ BEGIN\n    CREATE TYPE \"Color\" AS ENUM ('RED', 'BLUE');\nEXCEPTION\n    WHEN duplicate_object THEN null;\nEND $$;"] :=
  ((c2_theorem ("CREATE TYPE \"Color\" AS ENUM ('RED', 'BLUE');") (" ('RED', 'BLUE');") "Color"
      [] 0 (by decide) (by decide) (by decide)).1).trans (by decide)

/-- C3 (confirmed): for every line whose trimmed form begins with ALTER
TABLE and contains ADD CONSTRAINT: if both a double-quoted table name and a
double-quoted constraint name are present, the scan accumulates subsequent
lines until the accumulated text contains `;` (or the script ends) and
emits the DO block `constraintBlock`, which queries `pg_constraint` for
`conname = '<constraint name>'` and executes the original, unmodified
accumulated statement text only when no such constraint exists; if either
name is missing, the line is emitted unchanged and no further lines are
consumed. -/
theorem c3_theorem (line : String) (rest : List String) (fuel : Nat)
    (halter : isAddConstraint line = true) :
    (∀ t c, extractTableName line = some t → extractConstraintName line = some c →
      processLines (fuel + 1) (line :: rest) =
        (processLines fuel (collectStmt line rest).2).map
          (fun out => constraintBlock c (collectStmt line rest).1 :: out) ∧
      (pyContains (collectStmt line rest).1 ";" = true ∨ (collectStmt line rest).2 = [])) ∧
    ((extractTableName line = none ∨ extractConstraintName line = none) →
      processLines (fuel + 1) (line :: rest) =
        (processLines fuel rest).map (fun out => line :: out)) := by
  obtain ⟨hnt, hntab, hnidx⟩ := excl_of_isAddConstraint line halter
  constructor
  · intro t c hTn hCn
    constructor
    · simp only [processLines, hnt, Bool.false_eq_true, if_false, hntab, hnidx, halter,
        if_true, hTn, hCn]
    · exact collectStmt_terminator line rest
  · intro hmiss
    rcases hmiss with hTn | hCn
    · simp only [processLines, hnt, Bool.false_eq_true, if_false, hntab, hnidx, halter,
        if_true, hTn]
    · cases hTn : extractTableName line with
      | none =>
        simp only [processLines, hnt, Bool.false_eq_true, if_false, hntab, hnidx, halter,
          if_true, hTn]
      | some t =>
        simp only [processLines, hnt, Bool.false_eq_true, if_false, hntab, hnidx, halter,
          if_true, hTn, hCn]

/-- Witness for C3 at the spec's constraint example. -/
theorem c3_witness :
    processLines 1
      ["ALTER TABLE \"orders\" ADD CONSTRAINT \"fk_user\" FOREIGN KEY (\"user_id\") REFERENCES \"users\"(\"id\");"] =
      some ["DO $$\nBEGIN\n    IF NOT EXISTS (SELECT 1 FROM pg_constraint WHERE conname = 'fk_user') THEN\n        ALTER TABLE \"orders\" ADD CONSTRAINT \"fk_user\" FOREIGN KEY (\"user_id\") REFERENCES \"users\"(\"id\");\n    END IF;\nEND\n$$;"] :=
  (((c3_theorem _ [] 0 (by decide)).1 "orders" "fk_user" (by decide) (by decide)).1).trans
    (by decide)

/-- C4 counterexample: on a line containing a second occurrence of `INDEX `
everything after `parts[1]` is dropped, so the rest of the line is NOT left
unchanged: the output is `CREATE INDEX IF NOT EXISTS a ON t (`, not the
claimed insertion-only rewrite `CREATE INDEX IF NOT EXISTS a ON t (INDEX b)`. -/
theorem c4_counterexample :
    make_safe "CREATE INDEX a ON t (INDEX b)" = some "CREATE INDEX IF NOT EXISTS a ON t (" ∧
    make_safe "CREATE INDEX a ON t (INDEX b)" ≠
      some "CREATE INDEX IF NOT EXISTS a ON t (INDEX b)" := by
  constructor
  · decide
  · decide

/-- C4 (corrected): for every line whose trimmed form begins with CREATE
INDEX or CREATE UNIQUE INDEX: if the line does not already contain
IF NOT EXISTS and contains exactly one occurrence of the index keyword
followed by a space (`line.split('INDEX ') = [p0, p1]`), the output line is
the input line with `IF NOT EXISTS ` inserted immediately after that
occurrence, leaving the rest of the line unchanged (`line = p0 ++ "INDEX "
++ p1` is rewritten to `p0 ++ "INDEX IF NOT EXISTS " ++ p1`); if the
marker is already present, the line is emitted unchanged; in either case
exactly one line is consumed. -/
theorem c4_theorem (line : String) (rest : List String) (fuel : Nat)
    (hidx : isCreateIndex line = true) :
    (∀ p0 p1, pyContains line "IF NOT EXISTS" = false →
      pySplit line "INDEX " = [p0, p1] →
      line = p0 ++ "INDEX " ++ p1 ∧
      processLines (fuel + 1) (line :: rest) =
        (processLines fuel rest).map
          (fun out => (p0 ++ "INDEX IF NOT EXISTS " ++ p1) :: out)) ∧
    (pyContains line "IF NOT EXISTS" = true →
      processLines (fuel + 1) (line :: rest) =
        (processLines fuel rest).map (fun out => line :: out)) := by
  obtain ⟨hnt, hntab⟩ := excl_of_isCreateIndex line hidx
  constructor
  · intro p0 p1 hnot hsplit
    have hjoin := pyJoin_pySplit line "INDEX " (by decide)
    rw [hsplit, pyJoin_pair] at hjoin
    refine ⟨hjoin.symm, ?_⟩
    have hcont : pyContains line "INDEX" = true := by
      unfold pyContains
      rw [hjoin.symm] at hsplit ⊢
      rw [data_append, data_append, List.append_assoc]
      exact containsL_append_of _ _ _ (isPrefixOf_append_of _ _ _ (by decide))
    simp only [processLines, hnt, Bool.false_eq_true, if_false, hntab, hidx, if_true,
      hcont, hnot, Bool.not_false, Bool.and_true, hsplit]
  · intro hpres
    simp only [processLines, hnt, Bool.false_eq_true, if_false, hntab, hidx, if_true,
      hpres, Bool.not_true, Bool.and_false]

/-- Witness for C4 at the spec's index example. -/
theorem c4_witness :
    ("CREATE UNIQUE INDEX \"idx_email\" ON \"users\" (\"email\");" : String) =
      "CREATE UNIQUE " ++ "INDEX " ++ "\"idx_email\" ON \"users\" (\"email\");" ∧
    processLines 1 ["CREATE UNIQUE INDEX \"idx_email\" ON \"users\" (\"email\");"] =
      some ["CREATE UNIQUE INDEX IF NOT EXISTS \"idx_email\" ON \"users\" (\"email\");"] := by
  have h := (c4_theorem ("CREATE UNIQUE INDEX \"idx_email\" ON \"users\" (\"email\");") [] 0
      (by decide)).1 "CREATE UNIQUE " "\"idx_email\" ON \"users\" (\"email\");"
      (by decide) (by decide)
  exact ⟨h.1, h.2.trans (by decide)⟩

/-- C5 (confirmed): for every line whose trimmed form begins with CREATE
TABLE, the scan substitutes the keyword sequence `CREATE TABLE` with
`CREATE TABLE IF NOT EXISTS` (Python `str.replace`, modelled by
`pyReplace`) and emits the line otherwise unchanged, consuming only that
one line — the remaining lines (e.g. a multi-line table body) are handed
unchanged to the rest of the scan. -/
theorem c5_theorem (line : String) (rest : List String) (fuel : Nat)
    (htab : isCreateTable line = true) :
    processLines (fuel + 1) (line :: rest) =
      (processLines fuel rest).map
        (fun out => pyReplace line "CREATE TABLE" "CREATE TABLE IF NOT EXISTS" :: out) := by
  have hnt := notCreateType_of_isCreateTable line htab
  simp only [processLines, hnt, Bool.false_eq_true, if_false, htab, if_true]

/-- Witness for C5 at the spec's table example. -/
theorem c5_witness :
    processLines 1 ["CREATE TABLE \"users\" (id INT);"] =
      some ["CREATE TABLE IF NOT EXISTS \"users\" (id INT);"] :=
  (c5_theorem _ [] 0 (by decide)).trans (by decide)

/-- C6 (confirmed): for every input text in which no line matches any of
the four leading patterns (trimmed form beginning with CREATE TYPE, CREATE
TABLE, CREATE INDEX / CREATE UNIQUE INDEX, or the ALTER TABLE plus ADD
CONSTRAINT combination), `make_safe` is the identity: the output string
equals the input string exactly. -/
theorem c6_theorem (s : String)
    (h : ∀ l ∈ pySplit s "\n", isPassThrough l = true) :
    make_safe s = some s := by
  unfold make_safe
  rw [processLines_passThrough _ _ (le_refl _) h, Option.map_some']
  rw [pyJoin_pySplit s "\n" (by decide)]

/-- Witness for C6 at a concrete pass-through-only script. -/
theorem c6_witness :
    make_safe "SELECT 1;\nINSERT INTO t VALUES (1);\n" =
      some "SELECT 1;\nINSERT INTO t VALUES (1);\n" :=
  c6_theorem _ (by decide)

/-- C7 counterexample: in the two-line input below, the second line
`('A');;` does not match any recognized DDL-leading pattern
(`isPassThrough` holds), yet it is consumed as enum-statement lookahead and
does not appear in the output with identical content — it is not even a
substring of the output text (the value-list is re-stripped of trailing
semicolons before being re-emitted). -/
theorem c7_counterexample :
    isPassThrough "('A');;" = true ∧
    (make_safe "CREATE TYPE \"c\" AS ENUM\n('A');;").map
      (fun o => pyContains o "('A');;") = some false := by
  constructor
  · decide
  · decide

/-- Witness for C7 on a concrete three-line script: the two non-matching
lines survive, in order, around the rewritten CREATE TABLE line. -/
theorem c7_witness :
    List.Sublist (passThroughTrace 3 ["first line", "CREATE TABLE \"t\" (x);", "last line"])
      ["first line", "CREATE TABLE IF NOT EXISTS \"t\" (x);", "last line"] :=
  c7_theorem 3 ["first line", "CREATE TABLE \"t\" (x);", "last line"]
    ["first line", "CREATE TABLE IF NOT EXISTS \"t\" (x);", "last line"] (by decide)

/-- C8 (confirmed): a line whose trimmed form begins with CREATE TYPE but
from which no double-quoted type name can be extracted is emitted
unchanged, and no lookahead lines are consumed: the remaining lines are
handed to the scan unchanged, so each subsequent line is independently
re-evaluated. -/
theorem c8_theorem (line : String) (rest : List String) (fuel : Nat)
    (h1 : isCreateType line = true) (hname : extractTypeName line = none) :
    processLines (fuel + 1) (line :: rest) =
      (processLines fuel rest).map (fun out => line :: out) := by
  simp only [processLines, h1, if_true, hname]

/-- Witness for C8 at the spec's malformed-fallback example: the malformed
line passes through unchanged and the very next line is still classified
on its own (here, rewritten by the CREATE TABLE branch). -/
theorem c8_witness :
    processLines 2 ["CREATE TYPE WeirdLine AS ENUM (...)", "CREATE TABLE \"t\" (x);"] =
      some ["CREATE TYPE WeirdLine AS ENUM (...)", "CREATE TABLE IF NOT EXISTS \"t\" (x);"] :=
  (c8_theorem ("CREATE TYPE WeirdLine AS ENUM (...)") ["CREATE TABLE \"t\" (x);"] 1
    (by decide) (by decide)).trans (by decide)

/-- C9 (confirmed): the scan is one sequential pass whose cursor strictly
advances on every outer iteration, so the number of input lines is always
sufficient fuel: running the scan with any extra fuel `k` produces exactly
`make_safe`'s result — the transformation always completes over the full
input. -/
theorem c9_theorem (s : String) (k : Nat) :
    (processLines ((pySplit s "\n").length + k) (pySplit s "\n")).map
      (fun out => pyJoin "\n" out) = make_safe s := by
  unfold make_safe
  rw [processLines_fuel_irrel ((pySplit s "\n").length + k) (pySplit s "\n").length
    (pySplit s "\n") (Nat.le_add_right _ _) (le_refl _)]

/-- C10 (confirmed): the CREATE TABLE rewrite is Python `str.replace`,
which replaces every occurrence of `CREATE TABLE` in the line and applies
no already-guarded check: a line that already reads `CREATE TABLE IF NOT
EXISTS ...` is rewritten to `CREATE TABLE IF NOT EXISTS IF NOT EXISTS ...`,
and a line with two occurrences has both replaced. -/
theorem c10_theorem :
    make_safe "CREATE TABLE IF NOT EXISTS \"users\" (id INT);" =
      some "CREATE TABLE IF NOT EXISTS IF NOT EXISTS \"users\" (id INT);" ∧
    make_safe "CREATE TABLE \"a\" (x); CREATE TABLE \"b\" (y);" =
      some "CREATE TABLE IF NOT EXISTS \"a\" (x); CREATE TABLE IF NOT EXISTS \"b\" (y);" := by
  constructor
  · decide
  · decide
